import Mathlib

/-!
# lxpanel thermal plugin: sensor readers, registry, thresholds and display

A shallow embedding of `src/plugins/thermal/thermal.c`.

* C strings are lists of characters (`CStr`); a `char*` that may be `NULL` is an
  `Option CStr`.
* The file system and the host toolkit are an explicit environment `Env`.
* `thermal` is the plugin record; its four parallel arrays are functions from the
  index to the element, `numsensors` counts the live entries.
* `gint`/`int` values are `Int`; `atoi` follows glibc on LP64 (`(int) strtol (s, NULL, 10)`).
-/

namespace Thermal

/-! ## Constants -/

/-- A NUL-terminated C string, without its terminator. -/
abbrev CStr := List Char

def PROC_THERMAL_DIRECTORY : CStr := "/proc/acpi/thermal_zone/".toList
def PROC_THERMAL_TEMPF : CStr := "temperature".toList
def PROC_THERMAL_TRIP : CStr := "trip_points".toList
def PROC_TRIP_CRITICAL : CStr := "critical (S5):".toList
def SYSFS_THERMAL_DIRECTORY : CStr := "/sys/class/thermal/".toList
def SYSFS_THERMAL_SUBDIR_PREFIX : CStr := "thermal_zone".toList
def SYSFS_THERMAL_TEMPF : CStr := "temp".toList
def SYSFS_THERMAL_TRIP : CStr := "trip_point_0_temp".toList
def MAX_NUM_SENSORS : Nat := 10
def MAX_AUTOMATIC_CRITICAL_TEMP : Int := 150

/-! ## Environment -/

/-- The `GdkColor` record of the toolkit. -/
structure GdkColor where
  pixel : Nat
  red : Nat
  green : Nat
  blue : Nat
deriving DecidableEq, Repr

/-- Everything the plugin reads from outside itself.
* `dir d` is `none` when `g_dir_open d` fails, else the names `g_dir_read_name` yields, in order;
* `file p` is `none` when `fopen p "r"` fails, else the content of the file;
* `pstr0` is the indeterminate initial value of the local `pstr` of the readers
  (`none` for `NULL`), which they test when the file has no line at all;
* `gdk_color_parse` and `gcolor2rgb24` are the toolkit and host helpers of those names. -/
structure Env where
  dir : CStr → Option (List CStr)
  file : CStr → Option CStr
  pstr0 : Option CStr
  gdk_color_parse : CStr → Option GdkColor
  gcolor2rgb24 : GdkColor → Nat

/-! ## libc helpers -/

/-- The result `snprintf (buf, size, ...)` leaves in `buf` for the full output `s`:
at most `size - 1` characters. -/
def snprintf (size : Nat) (s : CStr) : CStr := s.take (size - 1)

/-- One `fgets` call with room for `k` characters: the characters read (through the
first newline, if one comes in time) and the rest of the stream. -/
def fgetsAux : Nat → CStr → CStr × CStr
  | 0, s => ([], s)
  | _ + 1, [] => ([], [])
  | k + 1, c :: s =>
    if c = '\n' then ([c], s)
    else ((c :: (fgetsAux k s).1), (fgetsAux k s).2)

/-- The call `fgets (buf, size, stream)`: `none` at end of file, else the buffer and the
rest of the stream. -/
def fgets (size : Nat) (stream : CStr) : Option (CStr × CStr) :=
  match stream with
  | [] => none
  | _ :: _ => some (fgetsAux (size - 1) stream)

/-- The call `strstr (hay, needle)`: the suffix of `hay` at the first occurrence. -/
def strstr : CStr → CStr → Option CStr
  | [], needle => if needle = [] then some [] else none
  | c :: s, needle => if needle.isPrefixOf (c :: s) then some (c :: s) else strstr s needle

/-- The `isspace` of the C locale. -/
def isspace (c : Char) : Bool :=
  c = ' ' || c = '\t' || c = '\n' || c.toNat = 11 || c.toNat = 12 || c = '\r'

def isdigit (c : Char) : Bool := decide ('0'.toNat ≤ c.toNat) && decide (c.toNat ≤ '9'.toNat)

/-- The value of the leading decimal digits of `s`, continuing from `acc`. -/
def digitsValue : Nat → CStr → Nat
  | acc, [] => acc
  | acc, c :: s => if isdigit c then digitsValue (acc * 10 + (c.toNat - '0'.toNat)) s else acc

def LONG_MAX : Int := 2 ^ 63 - 1
def LONG_MIN : Int := -(2 ^ 63)

/-- The call `strtol (s, NULL, 10)` on LP64: white space, an optional sign, digits;
out of range values are clamped. -/
def strtol (s : CStr) : Int :=
  match s.dropWhile isspace with
  | '-' :: t => max LONG_MIN (-(digitsValue 0 t : Int))
  | '+' :: t => min LONG_MAX (digitsValue 0 t : Int)
  | t => min LONG_MAX (digitsValue 0 t : Int)

/-- Conversion of a `long` to `int`: reduction modulo 2^32 into the signed range. -/
def toInt32 (v : Int) : Int := (v + 2 ^ 31) % 2 ^ 32 - 2 ^ 31

/-- The call `atoi (s)`, which glibc defines as `(int) strtol (s, NULL, 10)`. -/
def atoi (s : CStr) : Int := toInt32 (strtol s)

/-- The text `%d` prints for `v`. -/
def fmt_d (v : Int) : CStr :=
  if v < 0 then '-' :: Nat.toDigits 10 v.natAbs else Nat.toDigits 10 v.natAbs

/-- The text `%2d` prints: `%d` padded with blanks on the left to two characters. -/
def fmt_2d (v : Int) : CStr :=
  List.replicate (2 - (fmt_d v).length) ' ' ++ fmt_d v

/-- The text `%02d` prints: padded with zeros, after the sign, to two characters. -/
def fmt_02d (v : Int) : CStr :=
  if v < 0 then '-' :: (List.replicate (1 - (Nat.toDigits 10 v.natAbs).length) '0'
      ++ Nat.toDigits 10 v.natAbs)
  else List.replicate (2 - (Nat.toDigits 10 v.natAbs).length) '0' ++ Nat.toDigits 10 v.natAbs

/-- The text `%06x` prints for an unsigned value. -/
def fmt_06x (v : Nat) : CStr :=
  List.replicate (6 - (Nat.toDigits 16 v).length) '0' ++ Nat.toDigits 16 v

/-! ## Sensor readers -/

/-- The loop `while (fgets (buf, 256, state) && !(pstr = strstr (buf, label)));` of the
legacy readers: the final value of `pstr`. Each round consumes at least one character
of the stream, so `fuel` above the stream length is never exhausted. -/
def proc_scan (label : CStr) : Nat → CStr → Option CStr → Option CStr
  | 0, _, pstr => pstr
  | fuel + 1, stream, pstr =>
    match fgets 256 stream with
    | none => pstr
    | some (buf, rest) =>
      match strstr buf label with
      | some p => some p
      | none => proc_scan label fuel rest none

/-- The statement `pstr[strlen(pstr)-3] = '\0'`: the string at `pstr` loses its last three
characters; when it is shorter the byte written lies before `pstr` (inside `buf`, after
the label) and the string at `pstr` is unchanged. -/
def strip3 (p : CStr) : CStr :=
  if 3 ≤ p.length then p.take (p.length - 3) else p

/-- The common body of `proc_get_critical` and `proc_get_temperature`, after the `NULL`
test: `fname` is the file name and `label` the text searched for. -/
def proc_read (env : Env) (fname label : CStr) (sensor_path : CStr) : Int :=
  match env.file (snprintf 100 (sensor_path ++ fname)) with
  | none => -1
  | some content =>
    match proc_scan label (content.length + 1) content env.pstr0 with
    | some p => atoi (strip3 ((p.drop label.length).dropWhile (fun c => c == ' ')))
    | none => -1

def proc_get_critical (env : Env) (sensor_path : Option CStr) : Int :=
  match sensor_path with
  | none => -1
  | some path => proc_read env PROC_THERMAL_TRIP PROC_TRIP_CRITICAL path

def proc_get_temperature (env : Env) (sensor_path : Option CStr) : Int :=
  match sensor_path with
  | none => -1
  | some path => proc_read env PROC_THERMAL_TEMPF "temperature:".toList path

/-- The loop `while (fgets (buf, 256, state) && !(pstr = buf));` of the modern readers:
`pstr` is `buf` after the first line read, and keeps its initial value on an empty file. -/
def sysfs_scan (stream : CStr) (pstr : Option CStr) : Option CStr :=
  match fgets 256 stream with
  | none => pstr
  | some (buf, _) => some buf

/-- The common body of `sysfs_get_critical` and `sysfs_get_temperature`. -/
def sysfs_read (env : Env) (fname : CStr) (sensor_path : CStr) : Int :=
  match env.file (snprintf 100 (sensor_path ++ fname)) with
  | none => -1
  | some content =>
    match sysfs_scan content env.pstr0 with
    | some p => (atoi p).tdiv 1000
    | none => -1

def sysfs_get_critical (env : Env) (sensor_path : Option CStr) : Int :=
  match sensor_path with
  | none => -1
  | some path => sysfs_read env SYSFS_THERMAL_TRIP path

def sysfs_get_temperature (env : Env) (sensor_path : Option CStr) : Int :=
  match sensor_path with
  | none => -1
  | some path => sysfs_read env SYSFS_THERMAL_TEMPF path

def is_sysfs (path : Option CStr) : Bool :=
  match path with
  | none => false
  | some p => "/sys/".toList.isPrefixOf p

/-- The four functions a registry entry can point to. -/
inductive Reader where
  | proc_get_critical
  | proc_get_temperature
  | sysfs_get_critical
  | sysfs_get_temperature
deriving DecidableEq, Repr

/-- A call through a function pointer of the registry. -/
def Reader.call (env : Env) : Reader → Option CStr → Int
  | .proc_get_critical => Thermal.proc_get_critical env
  | .proc_get_temperature => Thermal.proc_get_temperature env
  | .sysfs_get_critical => Thermal.sysfs_get_critical env
  | .sysfs_get_temperature => Thermal.sysfs_get_temperature env

def get_temp_function (path : Option CStr) : Reader :=
  if is_sysfs path then .sysfs_get_temperature else .proc_get_temperature

def get_crit_function (path : Option CStr) : Reader :=
  if is_sysfs path then .sysfs_get_critical else .proc_get_critical

/-! ## Plugin state -/

/-- What the label widget `namew` was last told to show. -/
inductive Label where
  | gtk_label_new (text : CStr)
  | panel_draw_label_text (text : CStr)
  | gtk_label_set_markup (markup : CStr)
deriving DecidableEq, Repr

/-- The persisted key/value group `th->settings`. -/
structure Settings where
  NormalColor : Option CStr
  Warning1Color : Option CStr
  Warning2Color : Option CStr
  CustomLevels : Int
  Warning1Temp : Int
  Warning2Temp : Int
  AutomaticSensor : Int
  Sensor : Option CStr
deriving DecidableEq, Repr

/-- The record `struct thermal`. The arrays of `MAX_NUM_SENSORS` elements are functions of
the index; `label` and `tooltip` are what `namew` shows. -/
@[ext]
structure thermal where
  settings : Settings
  label : Label
  tooltip : CStr
  tip : CStr
  critical : Int
  warning1 : Int
  warning2 : Int
  not_custom_levels : Int
  auto_sensor : Int
  sensor : Option CStr
  str_cl_normal : Option CStr
  str_cl_warning1 : Option CStr
  str_cl_warning2 : Option CStr
  cl_normal : GdkColor
  cl_warning1 : GdkColor
  cl_warning2 : GdkColor
  numsensors : Nat
  sensor_array : Nat → Option CStr
  get_temperature : Nat → Reader
  get_critical : Nat → Reader
  temperature : Nat → Int

/-! ## Readings -/

/-- The loop of `get_temperature`: `todo` rounds are left, `i` is the index, `max` the
running maximum. -/
def get_temperature_loop (env : Env) : Nat → Nat → thermal → Int → thermal × Int
  | 0, _, th, max => (th, max)
  | todo + 1, i, th, max =>
    let cur := (th.get_temperature i).call env (th.sensor_array i)
    let max := if cur > max then cur else max
    get_temperature_loop env todo (i + 1)
      { th with temperature := Function.update th.temperature i cur } max

def get_temperature (env : Env) (th : thermal) : thermal × Int :=
  get_temperature_loop env th.numsensors 0 th (-273)

/-- The loop of `get_critical`. -/
def get_critical_loop (env : Env) (th : thermal) : Nat → Nat → Int → Int
  | 0, _, min => min
  | todo + 1, i, min =>
    let cur := (th.get_critical i).call env (th.sensor_array i)
    get_critical_loop env th todo (i + 1) (if cur < min then cur else min)

def get_critical (env : Env) (th : thermal) : Int :=
  get_critical_loop env th th.numsensors 0 MAX_AUTOMATIC_CRITICAL_TEMP

/-! ## Display -/

/-- The text `%s` prints for a string pointer (glibc prints `(null)` for `NULL`). -/
def fmt_s (s : Option CStr) : CStr :=
  match s with
  | none => "(null)".toList
  | some t => t

/-- The tooltip loop of `update_display`. -/
def tooltip_loop (th : thermal) : Nat → Nat → CStr → CStr → CStr
  | 0, _, _, tip => tip
  | todo + 1, i, separator, tip =>
    tooltip_loop th todo (i + 1) "\n".toList
      (tip ++ separator ++ fmt_s (th.sensor_array i) ++ ":\t".toList
        ++ fmt_2d (th.temperature i) ++ "°C".toList)

/-- The colour `update_display` selects for the reading `temp`. -/
def select_color (th : thermal) (temp : Int) : GdkColor :=
  if temp ≥ th.warning2 then th.cl_warning2
  else if temp ≥ th.warning1 then th.cl_warning1
  else th.cl_normal

/-- The buffer `update_display` formats for a reading other than -1. -/
def markup_buffer (env : Env) (color : GdkColor) (temp : Int) : CStr :=
  snprintf 60 ("<span color=\"#".toList ++ fmt_06x (env.gcolor2rgb24 color) ++ "\"><b>".toList
    ++ fmt_02d temp ++ "</b></span>".toList)

def update_display (env : Env) (th : thermal) : thermal :=
  let (th, temp) := get_temperature env th
  let color := select_color th temp
  let th :=
    if temp = -1 then { th with label := .panel_draw_label_text "NA".toList }
    else { th with label := .gtk_label_set_markup (markup_buffer env color temp) }
  let tip := tooltip_loop th th.numsensors 0 [] []
  { th with tip := tip, tooltip := tip }

/-! ## Registry -/

def add_sensor (th : thermal) (sensor_path : Option CStr) : thermal × Int :=
  if th.numsensors + 1 > MAX_NUM_SENSORS then (th, -1)
  else
    ({ th with
        sensor_array := Function.update th.sensor_array th.numsensors sensor_path
        get_critical := Function.update th.get_critical th.numsensors
          (get_crit_function sensor_path)
        get_temperature := Function.update th.get_temperature th.numsensors
          (get_temp_function sensor_path)
        numsensors := th.numsensors + 1 }, 0)

/-- The scanning loop of `find_sensors` over the names `g_dir_read_name` yields. -/
def find_sensors_loop (directory : CStr) ( subdir_prefix : Option CStr) :
    List CStr → thermal → thermal
  | [], th => th
  | sensor_name :: rest, th =>
    if sensor_name.head? = some '.' then find_sensors_loop directory subdir_prefix rest th
    else if ( subdir_prefix.any fun p => !(p.isPrefixOf sensor_name)) then
      find_sensors_loop directory subdir_prefix rest th
    else
      find_sensors_loop directory subdir_prefix rest
        (add_sensor th (some (snprintf 100 (directory ++ sensor_name ++ "/".toList)))).1

def find_sensors (env : Env) (th : thermal) (directory : CStr) ( subdir_prefix : Option CStr) :
    thermal :=
  match env.dir directory with
  | none => th
  | some names => find_sensors_loop directory subdir_prefix names th

/-- The pointers freed stay in the array; only the count is reset. -/
def remove_all_sensors (th : thermal) : thermal :=
  { th with numsensors := 0 }

def check_sensors (env : Env) (th : thermal) : thermal :=
  find_sensors env (find_sensors env th PROC_THERMAL_DIRECTORY none)
    SYSFS_THERMAL_DIRECTORY (some SYSFS_THERMAL_SUBDIR_PREFIX)

/-! ## Configuration -/

/-- The statement `if (str) gdk_color_parse (str, &cl);`: a string that does not parse
leaves the colour as it was. -/
def parse_color (env : Env) (str : Option CStr) (cl : GdkColor) : GdkColor :=
  match str with
  | none => cl
  | some s => (env.gdk_color_parse s).getD cl

def applyConfig (env : Env) (th : thermal) : thermal :=
  let th := { th with
    cl_normal := parse_color env th.str_cl_normal th.cl_normal
    cl_warning1 := parse_color env th.str_cl_warning1 th.cl_warning1
    cl_warning2 := parse_color env th.str_cl_warning2 th.cl_warning2 }
  let th := remove_all_sensors th
  let th := if th.sensor = none then { th with auto_sensor := 1 } else th
  let th := if th.auto_sensor ≠ 0 then check_sensors env th else (add_sensor th th.sensor).1
  let th := { th with critical := get_critical env th }
  let th :=
    if th.not_custom_levels ≠ 0 then
      { th with warning1 := toInt32 (th.critical - 10), warning2 := toInt32 (th.critical - 5) }
    else th
  { th with settings :=
      { NormalColor := th.str_cl_normal
        Warning1Color := th.str_cl_warning1
        Warning2Color := th.str_cl_warning2
        CustomLevels := th.not_custom_levels
        Warning1Temp := th.warning1
        Warning2Temp := th.warning2
        AutomaticSensor := th.auto_sensor
        Sensor := th.sensor } }

/-! ## Auxiliary predicates -/

/-- The value the temperature reader of entry `j` returns. -/
def temp_reading (env : Env) (th : thermal) (j : Nat) : Int :=
  (th.get_temperature j).call env (th.sensor_array j)

/-- The value the critical reader of entry `j` returns. -/
def crit_reading (env : Env) (th : thermal) (j : Nat) : Int :=
  (th.get_critical j).call env (th.sensor_array j)

/-- A run of `add_sensor` calls, one per path, results ignored. -/
def add_all (paths : List (Option CStr)) (th : thermal) : thermal :=
  paths.foldl (fun t p => (add_sensor t p).1) th

/-- The paths `find_sensors` hands to `add_sensor` for a directory listing. -/
def candidates (directory : CStr) ( subdir_prefix : Option CStr) (names : List CStr) :
    List (Option CStr) :=
  names.filterMap fun sensor_name =>
    if sensor_name.head? = some '.' then none
    else if ( subdir_prefix.any fun p => !(p.isPrefixOf sensor_name)) then none
    else some (some (snprintf 100 (directory ++ sensor_name ++ "/".toList)))

/-- The paths `find_sensors` hands to `add_sensor`; none when the directory does not open. -/
def found (env : Env) (directory : CStr) ( subdir_prefix : Option CStr) : List (Option CStr) :=
  match env.dir directory with
  | none => []
  | some names => candidates directory subdir_prefix names

/-- The paths `check_sensors` hands to `add_sensor`: the legacy root first. -/
def scan_candidates (env : Env) : List (Option CStr) :=
  found env PROC_THERMAL_DIRECTORY none
    ++ found env SYSFS_THERMAL_DIRECTORY (some SYSFS_THERMAL_SUBDIR_PREFIX)

/-- A text that is empty or ends with a newline: a sequence of complete lines. -/
def EndsNL (l : CStr) : Prop := l = [] ∨ ∃ b, l = b ++ ['\n']

/-- The value `applyConfig` gives `auto_sensor`: forced on when no sensor path is set. -/
def auto_flag (th : thermal) : Int := if th.sensor = none then 1 else th.auto_sensor

/-- The paths `applyConfig` hands to `add_sensor`, in order. -/
def rebuild_paths (env : Env) (th : thermal) : List (Option CStr) :=
  if auto_flag th ≠ 0 then scan_candidates env else [th.sensor]

/-- The first part of `applyConfig`: colours parsed, registry emptied, `auto_sensor` set. -/
def prepare (env : Env) (th : thermal) : thermal :=
  { th with
    cl_normal := parse_color env th.str_cl_normal th.cl_normal
    cl_warning1 := parse_color env th.str_cl_warning1 th.cl_warning1
    cl_warning2 := parse_color env th.str_cl_warning2 th.cl_warning2
    numsensors := 0
    auto_sensor := auto_flag th }

/-- The last part of `applyConfig`: thresholds derived and settings stored. -/
def conclude (env : Env) (th : thermal) : thermal :=
  let th := { th with critical := get_critical env th }
  let th :=
    if th.not_custom_levels ≠ 0 then
      { th with warning1 := toInt32 (th.critical - 10), warning2 := toInt32 (th.critical - 5) }
    else th
  { th with settings :=
      { NormalColor := th.str_cl_normal
        Warning1Color := th.str_cl_warning1
        Warning2Color := th.str_cl_warning2
        CustomLevels := th.not_custom_levels
        Warning1Temp := th.warning1
        Warning2Temp := th.warning2
        AutomaticSensor := th.auto_sensor
        Sensor := th.sensor } }

/-- The record after the first two parts of `applyConfig`, field by field: the first
`MAX_NUM_SENSORS` paths of `rebuild_paths` fill the registry from index 0. -/
def rebuilt (env : Env) (th : thermal) : thermal :=
  { th with
    cl_normal := parse_color env th.str_cl_normal th.cl_normal
    cl_warning1 := parse_color env th.str_cl_warning1 th.cl_warning1
    cl_warning2 := parse_color env th.str_cl_warning2 th.cl_warning2
    auto_sensor := auto_flag th
    numsensors := min (rebuild_paths env th).length MAX_NUM_SENSORS
    sensor_array := fun i =>
      if i < min (rebuild_paths env th).length MAX_NUM_SENSORS
      then (rebuild_paths env th).getD i none else th.sensor_array i
    get_critical := fun i =>
      if i < min (rebuild_paths env th).length MAX_NUM_SENSORS
      then get_crit_function ((rebuild_paths env th).getD i none) else th.get_critical i
    get_temperature := fun i =>
      if i < min (rebuild_paths env th).length MAX_NUM_SENSORS
      then get_temp_function ((rebuild_paths env th).getD i none) else th.get_temperature i }

/-! ## Sample inputs -/

/-- An environment given by two tables: the directories that open, with their entries, and
the files that open, with their content. -/
def sampleEnv (dirs : List (CStr × List CStr)) (files : List (CStr × CStr)) : Env where
  dir := fun d => dirs.lookup d
  file := fun p => files.lookup p
  pstr0 := none
  gdk_color_parse := fun _ => none
  gcolor2rgb24 := fun c => c.red

/-- The record as `thermal_constructor` has it before `applyConfig`, with no stored settings. -/
def sampleThermal : thermal where
  settings := ⟨none, none, none, 0, 0, 0, 0, none⟩
  label := .gtk_label_new "ww".toList
  tooltip := []
  tip := []
  critical := 0
  warning1 := 0
  warning2 := 0
  not_custom_levels := 1
  auto_sensor := 0
  sensor := none
  str_cl_normal := some "#00ff00".toList
  str_cl_warning1 := some "#fff000".toList
  str_cl_warning2 := some "#ff0000".toList
  cl_normal := ⟨0, 0, 0, 0⟩
  cl_warning1 := ⟨0, 0, 0, 0⟩
  cl_warning2 := ⟨0, 0, 0, 0⟩
  numsensors := 0
  sensor_array := fun _ => none
  get_temperature := fun _ => .proc_get_temperature
  get_critical := fun _ => .proc_get_critical
  temperature := fun _ => 0

/-- One modern sensor whose two files hold `55000`, without a final newline. -/
def envModern : Env :=
  sampleEnv [] [("/sys/class/thermal/thermal_zone0/temp".toList, "55000".toList),
    ("/sys/class/thermal/thermal_zone0/trip_point_0_temp".toList, "55000".toList)]

/-- One legacy sensor: `temperature` has a status line, then `temperature:`, thirteen
blanks and `55 C`; `trip_points` has `critical (S5):`, three blanks and `100 C`. Every line
ends with a newline. -/
def envLegacy : Env :=
  sampleEnv []
    [("/proc/acpi/thermal_zone/THM0/temperature".toList,
        "state: ok\ntemperature:             55 C\n".toList),
     ("/proc/acpi/thermal_zone/THM0/trip_points".toList,
        "critical (S5):   100 C\npassive: 95 C\n".toList)]

/-- One legacy sensor whose `temperature` file is the single line `temperature: 55 C`
with no newline after it. -/
def envLegacyNoNewline : Env :=
  sampleEnv []
    [("/proc/acpi/thermal_zone/THM0/temperature".toList, "temperature: 55 C".toList)]

/-- The modern root lists twelve entries, eleven of them named `thermal_zone...`; the
legacy root does not open. -/
def envEleven : Env :=
  sampleEnv [(SYSFS_THERMAL_DIRECTORY,
    ["thermal_zone0", "thermal_zone1", "thermal_zone2", "thermal_zone3", "cooling_device0",
     "thermal_zone4", "thermal_zone5", "thermal_zone6", "thermal_zone7", "thermal_zone8",
     "thermal_zone9", "thermal_zone10"].map String.toList)] []

/-- A sensor path is set and automatic sensor location is off. -/
def thManual : thermal :=
  { sampleThermal with sensor := some "/sys/class/thermal/thermal_zone3/".toList, auto_sensor := 0 }

/-- A sensor path is set while automatic sensor location is on. -/
def thManualAuto : thermal :=
  { sampleThermal with sensor := some "/sys/class/thermal/thermal_zone3/".toList, auto_sensor := 1 }

/-- Three modern sensors whose critical trip points read 90, 85 and 95 degrees. -/
def envThree : Env :=
  sampleEnv
    [(SYSFS_THERMAL_DIRECTORY, ["thermal_zone0", "thermal_zone1", "thermal_zone2"].map String.toList)]
    [("/sys/class/thermal/thermal_zone0/trip_point_0_temp".toList, "90000\n".toList),
     ("/sys/class/thermal/thermal_zone1/trip_point_0_temp".toList, "85000\n".toList),
     ("/sys/class/thermal/thermal_zone2/trip_point_0_temp".toList, "95000\n".toList)]

/-- No directory and no file opens. -/
def envNothing : Env := sampleEnv [] []

/-- Two modern sensors reading 55 and 48 degrees, thresholds from a critical point of 60. -/
def envWarm : Env :=
  sampleEnv [(SYSFS_THERMAL_DIRECTORY, ["thermal_zone0", "thermal_zone1"].map String.toList)]
    [("/sys/class/thermal/thermal_zone0/temp".toList, "55000\n".toList),
     ("/sys/class/thermal/thermal_zone0/trip_point_0_temp".toList, "60000\n".toList),
     ("/sys/class/thermal/thermal_zone1/temp".toList, "48000\n".toList),
     ("/sys/class/thermal/thermal_zone1/trip_point_0_temp".toList, "60000\n".toList)]

/-! ## Decimal digits -/

theorem digitChar_isdigit (k : Nat) (h : k < 10) :
    isdigit (Nat.digitChar k) = true ∧ (Nat.digitChar k).toNat - '0'.toNat = k := by
  interval_cases k <;> decide

theorem isdigit_facts (c : Char) (h : isdigit c = true) :
    c ≠ '\n' ∧ c ≠ ' ' ∧ c ≠ '-' ∧ c ≠ '+' ∧ isspace c = false := by
  have h1 : 48 ≤ c.toNat ∧ c.toNat ≤ 57 := by
    simpa [isdigit] using h
  have hne : ∀ d : Char, d.toNat < 48 → c ≠ d := by
    intro d hd hcd
    rw [hcd] at h1
    omega
  refine ⟨hne _ (by decide), hne _ (by decide), hne _ (by decide), hne _ (by decide), ?_⟩
  have e1 := hne '\t' (by decide)
  have e2 := hne '\r' (by decide)
  have e3 := hne '\n' (by decide)
  have e4 := hne ' ' (by decide)
  have e5 : c.toNat ≠ 11 := by omega
  have e6 : c.toNat ≠ 12 := by omega
  simp [isspace, e1, e2, e3, e4, e5, e6]

/-- The digits `Nat.toDigitsCore` puts in front of `ds`: a nonempty run of decimal digits
whose value is `n`. -/
theorem toDigitsCore_spec (fuel : Nat) : ∀ (n : Nat) (ds : List Char), n < fuel →
    ∃ pre : List Char, Nat.toDigitsCore 10 fuel n ds = pre ++ ds ∧ pre ≠ [] ∧
      (∀ c ∈ pre, isdigit c = true) ∧
      ∀ (acc : Nat) (rest : CStr),
        digitsValue acc (pre ++ rest) = digitsValue (acc * 10 ^ pre.length + n) rest := by
  induction fuel with
  | zero => intro n ds h; omega
  | succ fuel ih =>
    intro n ds h
    have hd := digitChar_isdigit (n % 10) (Nat.mod_lt _ (by decide))
    by_cases h0 : n / 10 = 0
    · refine ⟨[Nat.digitChar (n % 10)], ?_, by simp, ?_, ?_⟩
      · simp [Nat.toDigitsCore, h0]
      · intro c hc
        rw [List.mem_singleton] at hc
        rw [hc]; exact hd.1
      · intro acc rest
        have hn : n % 10 = n := by omega
        have hd2 : (Nat.digitChar (n % 10)).toNat - 48 = n % 10 := hd.2
        simp only [List.singleton_append, digitsValue, hd.1, if_true, List.length_singleton, pow_one]
        rw [show '0'.toNat = 48 from rfl, hd2, hn]
        rfl
    · obtain ⟨pre, hpre, -, hdig, hval⟩ := ih (n / 10) (Nat.digitChar (n % 10) :: ds) (by omega)
      refine ⟨pre ++ [Nat.digitChar (n % 10)], ?_, by simp, ?_, ?_⟩
      · simp [Nat.toDigitsCore, h0, hpre]
      · intro c hc
        rw [List.mem_append, List.mem_singleton] at hc
        rcases hc with hc | hc
        · exact hdig c hc
        · rw [hc]; exact hd.1
      · intro acc rest
        have hd2 : (Nat.digitChar (n % 10)).toNat - 48 = n % 10 := hd.2
        rw [List.append_assoc, hval]
        simp only [List.singleton_append, digitsValue, hd.1, if_true, List.length_append,
          List.length_singleton]
        rw [show '0'.toNat = 48 from rfl, hd2]
        congr 1
        have := Nat.div_add_mod n 10
        rw [pow_succ]
        nlinarith [Nat.div_add_mod n 10]

theorem toDigits_spec (n : Nat) :
    Nat.toDigits 10 n ≠ [] ∧ (∀ c ∈ Nat.toDigits 10 n, isdigit c = true) ∧
      ∀ (acc : Nat) (rest : CStr), digitsValue acc (Nat.toDigits 10 n ++ rest)
        = digitsValue (acc * 10 ^ (Nat.toDigits 10 n).length + n) rest := by
  obtain ⟨pre, hpre, hne, hdig, hval⟩ := toDigitsCore_spec (n + 1) n [] (by omega)
  have : Nat.toDigits 10 n = pre := by simp [Nat.toDigits, hpre]
  rw [this]
  exact ⟨hne, hdig, hval⟩

/-- Reading back the decimal rendering of `n`, followed by something that is not a digit. -/
theorem digitsValue_toDigits (n : Nat) (rest : CStr) (hrest : ∀ c ∈ rest.head?, isdigit c = false) :
    digitsValue 0 (Nat.toDigits 10 n ++ rest) = n := by
  rw [(toDigits_spec n).2.2]
  cases rest with
  | nil => simp [digitsValue]
  | cons c r =>
    have := hrest c (by simp)
    simp [digitsValue, this]

theorem toDigits_length_le (n : Nat) (h : n ≤ 2 ^ 31) : (Nat.toDigits 10 n).length ≤ 10 :=
  Nat.toDigitsCore_length 10 (by decide) (n + 1) n 10 (by norm_num at h ⊢; omega) (by decide)

theorem toInt32_id (v : Int) (h1 : -(2 ^ 31) ≤ v) (h2 : v < 2 ^ 31) : toInt32 v = v := by
  unfold toInt32
  norm_num at h1 h2 ⊢
  omega

/-! ## Reading lines -/

theorem fgetsAux_line (body rest : CStr) (hb : '\n' ∉ body) :
    ∀ k, body.length < k → fgetsAux k (body ++ '\n' :: rest) = (body ++ ['\n'], rest) := by
  induction body with
  | nil =>
    intro k hk
    obtain ⟨k, rfl⟩ : ∃ j, k = j + 1 := ⟨k - 1, by simp at hk; omega⟩
    simp [fgetsAux]
  | cons c body ih =>
    intro k hk
    obtain ⟨k, rfl⟩ : ∃ j, k = j + 1 := ⟨k - 1, by simp at hk; omega⟩
    have hc : c ≠ '\n' := fun h => hb (by simp [h])
    have hb2 : '\n' ∉ body := fun h => hb (by simp [h])
    have := ih hb2 k (by simp at hk; omega)
    simp [fgetsAux, hc, this]

theorem fgetsAux_eof (body : CStr) (hb : '\n' ∉ body) :
    ∀ k, body.length ≤ k → fgetsAux k body = (body, []) := by
  induction body with
  | nil =>
    intro k _
    cases k <;> simp [fgetsAux]
  | cons c body ih =>
    intro k hk
    obtain ⟨k, rfl⟩ : ∃ j, k = j + 1 := ⟨k - 1, by simp at hk; omega⟩
    have hc : c ≠ '\n' := fun h => hb (by simp [h])
    have hb2 : '\n' ∉ body := fun h => hb (by simp [h])
    have := ih hb2 k (by simp at hk; omega)
    simp [fgetsAux, hc, this]

theorem toDigits_no_newline (n : Nat) : '\n' ∉ Nat.toDigits 10 n := by
  intro h
  have := (toDigits_spec n).2.1 _ h
  exact absurd this (by decide)

/-- The value `strtol` reads from a run of digits followed by something else. -/
theorem strtol_toDigits (n : Nat) (rest : CStr) (hrest : ∀ c ∈ rest.head?, isdigit c = false)
    (hn : n ≤ 2 ^ 31) : strtol (Nat.toDigits 10 n ++ rest) = n := by
  obtain ⟨hne, hdig, -⟩ := toDigits_spec n
  have hv := digitsValue_toDigits n rest hrest
  obtain ⟨c, cs, hcs⟩ := List.exists_cons_of_ne_nil hne
  rw [hcs] at hv hdig ⊢
  obtain ⟨-, -, h3, h4, h5⟩ := isdigit_facts c (hdig c (by simp))
  have hdw : List.dropWhile isspace (c :: cs ++ rest) = c :: (cs ++ rest) := by
    simp [List.dropWhile, h5]
  unfold strtol
  rw [hdw]
  split
  · rename_i heq; simp at heq; exact absurd heq.1 h3
  · rename_i heq; simp at heq; exact absurd heq.1 h4
  · rw [← List.cons_append, hv]
    unfold LONG_MAX
    norm_num at hn ⊢
    omega

theorem strtol_neg_toDigits (n : Nat) (rest : CStr)
    (hrest : ∀ c ∈ rest.head?, isdigit c = false) (hn : n ≤ 2 ^ 31) :
    strtol ('-' :: (Nat.toDigits 10 n ++ rest)) = -(n : Int) := by
  have hv := digitsValue_toDigits n rest hrest
  have hdw : List.dropWhile isspace ('-' :: (Nat.toDigits 10 n ++ rest))
      = '-' :: (Nat.toDigits 10 n ++ rest) := by
    rw [List.dropWhile_cons]
    simp [show isspace '-' = false by decide]
  unfold strtol
  rw [hdw]
  simp only [hv]
  unfold LONG_MIN
  norm_num at hn ⊢
  omega

/-- The decimal text `%d` prints for a C `int`, followed by something that is not a digit,
is read back by `atoi`. -/
theorem atoi_fmt_d (m : Int) (rest : CStr) (hrest : ∀ c ∈ rest.head?, isdigit c = false)
    (h1 : -(2 ^ 31) ≤ m) (h2 : m < 2 ^ 31) : atoi (fmt_d m ++ rest) = m := by
  unfold atoi fmt_d
  by_cases hneg : m < 0
  · rw [if_pos hneg, List.cons_append, strtol_neg_toDigits _ _ hrest (by norm_num at h1 ⊢; omega)]
    rw [toInt32_id _ (by omega) (by omega)]
    omega
  · rw [if_neg hneg, strtol_toDigits _ _ hrest (by norm_num at h2 ⊢; omega)]
    rw [toInt32_id _ (by omega) (by omega)]
    omega

theorem fmt_d_length_le (m : Int) (h1 : -(2 ^ 31) ≤ m) (h2 : m < 2 ^ 31) :
    (fmt_d m).length ≤ 11 := by
  have := toDigits_length_le m.natAbs (by norm_num at h1 h2 ⊢; omega)
  unfold fmt_d
  split <;> simp <;> omega

theorem fmt_d_no_newline (m : Int) : '\n' ∉ fmt_d m := by
  unfold fmt_d
  have := toDigits_no_newline m.natAbs
  split
  · intro h
    rw [List.mem_cons] at h
    rcases h with h | h
    · exact absurd h (by decide)
    · exact this h
  · exact this

/-! ## The modern readers -/

theorem fgets_of_ne_nil (size : Nat) (s : CStr) (h : s ≠ []) :
    fgets size s = some (fgetsAux (size - 1) s) := by
  cases s with
  | nil => exact absurd rfl h
  | cons c s => rfl

theorem sysfs_read_value (env : Env) (fname path : CStr) (m : Int) (tail : CStr)
    (h1 : -(2 ^ 31) ≤ m) (h2 : m < 2 ^ 31) (htail : tail = [] ∨ ∃ r, tail = '\n' :: r)
    (hfile : env.file (snprintf 100 (path ++ fname)) = some (fmt_d m ++ tail)) :
    sysfs_read env fname path = m.tdiv 1000 := by
  have hlen := fmt_d_length_le m h1 h2
  have hnl := fmt_d_no_newline m
  have hne : fmt_d m ≠ [] := by
    unfold fmt_d
    split
    · simp
    · exact (toDigits_spec _).1
  unfold sysfs_read
  rw [hfile]
  rcases htail with rfl | ⟨r, rfl⟩
  · have hf : fgets 256 (fmt_d m ++ []) = some (fmt_d m, []) := by
      rw [List.append_nil, fgets_of_ne_nil _ _ hne]
      exact congrArg some (fgetsAux_eof _ hnl 255 (by omega))
    have ha := atoi_fmt_d m [] (by simp) h1 h2
    rw [List.append_nil] at ha hf
    simp [sysfs_scan, hf, ha]
  · have hf : fgets 256 (fmt_d m ++ '\n' :: r) = some (fmt_d m ++ ['\n'], r) := by
      rw [fgets_of_ne_nil _ _ (by simp)]
      exact congrArg some (fgetsAux_line _ _ hnl 255 (by omega))
    have ha := atoi_fmt_d m ['\n'] (by simp; decide) h1 h2
    simp [sysfs_scan, hf, ha]

/-- C8. Modern reader parse: when the file opens and its first line is the decimal
rendering of a C `int` `m` (the file ends there, or a newline and anything else follow),
`sysfs_get_temperature` and `sysfs_get_critical` return `m / 1000` truncated toward zero. -/
theorem sysfs_readers_parse (env : Env) (path : CStr) (m : Int) (tail : CStr)
    (h1 : -(2 ^ 31) ≤ m) (h2 : m < 2 ^ 31) (htail : tail = [] ∨ ∃ r, tail = '\n' :: r) :
    (env.file (snprintf 100 (path ++ SYSFS_THERMAL_TEMPF)) = some (fmt_d m ++ tail) →
      sysfs_get_temperature env (some path) = m.tdiv 1000) ∧
    (env.file (snprintf 100 (path ++ SYSFS_THERMAL_TRIP)) = some (fmt_d m ++ tail) →
      sysfs_get_critical env (some path) = m.tdiv 1000) :=
  ⟨fun h => sysfs_read_value env _ path m tail h1 h2 htail h,
   fun h => sysfs_read_value env _ path m tail h1 h2 htail h⟩

theorem sysfs_readers_parse_witness :
    sysfs_get_temperature envModern (some "/sys/class/thermal/thermal_zone0/".toList) = 55 ∧
    sysfs_get_critical envModern (some "/sys/class/thermal/thermal_zone0/".toList) = 55 :=
  have h := sysfs_readers_parse envModern "/sys/class/thermal/thermal_zone0/".toList 55000 []
    (by norm_num) (by norm_num) (Or.inl rfl)
  ⟨h.1 (by decide), h.2 (by decide)⟩

/-! ## The legacy readers -/

theorem strstr_of_isPrefixOf (hay needle : CStr) (hne : hay ≠ [])
    (h : needle.isPrefixOf hay = true) : strstr hay needle = some hay := by
  cases hay with
  | nil => exact absurd rfl hne
  | cons c s => simp [strstr, h]

theorem strstr_none (needle : CStr) : ∀ hay : CStr, ¬ needle <:+: hay → strstr hay needle = none := by
  intro hay
  induction hay with
  | nil =>
    intro h
    have : needle ≠ [] := fun e => h (by simp [e])
    simp [strstr, this]
  | cons c s ih =>
    intro h
    have h1 : needle.isPrefixOf (c :: s) = false := by
      rw [Bool.eq_false_iff]
      intro hp
      exact h (List.isPrefixOf_iff_prefix.mp hp).isInfix
    have h2 : ¬ needle <:+: s := fun hi => h (hi.trans (List.suffix_cons c s).isInfix)
    simp [strstr, h1, ih h2]

theorem EndsNL_tail (c : Char) (s : CStr) (h : EndsNL (c :: s)) : EndsNL s := by
  rcases h with h | ⟨b, hb⟩
  · exact absurd h (by simp)
  · cases b with
    | nil =>
      simp at hb
      exact Or.inl hb.2
    | cons d b =>
      simp at hb
      exact Or.inr ⟨b, hb.2⟩

theorem EndsNL_tail_ne_nil (c : Char) (s : CStr) (h : EndsNL (c :: s)) (hc : c ≠ '\n') :
    s ≠ [] := by
  rintro rfl
  rcases h with h | ⟨b, hb⟩
  · exact absurd h (by simp)
  · cases b with
    | nil =>
      simp at hb
      exact hc hb
    | cons d b =>
      simp at hb

theorem EndsNL_of_getLast? (l : CStr) (h : l = [] ∨ l.getLast? = some '\n') : EndsNL l := by
  rcases h with h | h
  · exact Or.inl h
  · right
    rcases List.eq_nil_or_concat l with h0 | ⟨b, x, hb⟩
    · rw [h0] at h
      simp at h
    · rw [hb] at h
      simp at h
      exact ⟨b, by rw [hb, h]; simp⟩

/-- One `fgets` on complete lines followed by `rest` stays inside the lines. -/
theorem fgetsAux_split (rest : CStr) : ∀ (k : Nat) (pre : CStr), pre ≠ [] → EndsNL pre →
    ∃ buf pre2, pre = buf ++ pre2 ∧ buf ≠ [] ∧ EndsNL pre2 ∧
      fgetsAux (k + 1) (pre ++ rest) = (buf, pre2 ++ rest) := by
  intro k
  induction k with
  | zero =>
    intro pre hne hnl
    obtain ⟨c, s, rfl⟩ := List.exists_cons_of_ne_nil hne
    refine ⟨[c], s, rfl, by simp, EndsNL_tail c s hnl, ?_⟩
    by_cases hc : c = '\n' <;> simp [fgetsAux, hc]
  | succ k ih =>
    intro pre hne hnl
    obtain ⟨c, s, rfl⟩ := List.exists_cons_of_ne_nil hne
    by_cases hc : c = '\n'
    · exact ⟨[c], s, rfl, by simp, EndsNL_tail c s hnl, by simp [fgetsAux, hc]⟩
    · obtain ⟨buf, pre2, h1, -, h3, h4⟩ :=
        ih s (EndsNL_tail_ne_nil c s hnl hc) (EndsNL_tail c s hnl)
      refine ⟨c :: buf, pre2, by rw [h1]; rfl, by simp, h3, ?_⟩
      rw [List.cons_append, fgetsAux]
      simp [hc, h4]

/-- The scanning loop passes over complete lines that do not contain the label, using at
most one round per character. -/
theorem proc_scan_skip (label rest : CStr) : ∀ (n : Nat) (pre : CStr), pre.length ≤ n →
    EndsNL pre → ¬ label <:+: pre → ∀ (fuel : Nat) (pstr : Option CStr), pre.length ≤ fuel →
    ∃ (r : Nat) (q : Option CStr), r ≤ pre.length ∧
      proc_scan label fuel (pre ++ rest) pstr = proc_scan label (fuel - r) rest q := by
  intro n
  induction n with
  | zero =>
    intro pre hlen _ _ fuel pstr _
    have : pre = [] := List.length_eq_zero.mp (by omega)
    subst this
    exact ⟨0, pstr, by simp, by simp⟩
  | succ n ih =>
    intro pre hlen hnl hlab fuel pstr hfuel
    by_cases hne : pre = []
    · subst hne
      exact ⟨0, pstr, by simp, by simp⟩
    · obtain ⟨buf, pre2, h1, h2, h3, h4⟩ := fgetsAux_split rest 254 pre hne hnl
      have hbl : 0 < buf.length := List.length_pos.mpr h2
      have hlen2 : pre.length = buf.length + pre2.length := by rw [h1]; simp
      have hpl : 0 < pre.length := by omega
      obtain ⟨fuel, rfl⟩ : ∃ f, fuel = f + 1 := ⟨fuel - 1, by omega⟩
      have hlab2 : ¬ label <:+: pre2 := fun hi =>
        hlab (by rw [h1]; exact hi.trans (List.suffix_append buf pre2).isInfix)
      have hlab1 : ¬ label <:+: buf := fun hi =>
        hlab (by rw [h1]; exact hi.trans (List.prefix_append buf pre2).isInfix)
      obtain ⟨r, q, hr, hq⟩ := ih pre2 (by omega) h3 hlab2 fuel none (by omega)
      refine ⟨r + 1, q, by omega, ?_⟩
      have hf : fgets 256 (pre ++ rest) = some (buf, pre2 ++ rest) := by
        rw [fgets_of_ne_nil _ _ (by simp [hne])]
        exact congrArg some h4
      rw [proc_scan, hf]
      simp only [strstr_none label buf hlab1]
      rw [hq]
      congr 1
      omega

theorem dropWhile_spaces (k : Nat) (s : CStr) (hs : ∀ c ∈ s.head?, c ≠ ' ') :
    (List.replicate k ' ' ++ s).dropWhile (fun c => c == ' ') = s := by
  induction k with
  | zero =>
    cases s with
    | nil => rfl
    | cons c s =>
      have hb : (c == ' ') = false := by simpa using hs c (by simp)
      rw [List.replicate_zero, List.nil_append, List.dropWhile_cons, hb]
      rfl
  | succ k ih =>
    rw [List.replicate_succ, List.cons_append, List.dropWhile_cons]
    simpa using ih

theorem atoi_toDigits (n : Nat) (hn : n < 2 ^ 31) : atoi (Nat.toDigits 10 n) = n := by
  have := strtol_toDigits n [] (by simp) (by omega)
  rw [List.append_nil] at this
  unfold atoi
  rw [this, toInt32_id _ (by omega) (by exact_mod_cast hn)]

/-- The legacy reader on a file whose first line with the label is the label, blanks, a
number, a blank, one more character and a newline. -/
theorem proc_read_value (env : Env) (fname label path : CStr) (n k : Nat) (pre rest : CStr)
    (hl0 : label ≠ []) (hl1 : '\n' ∉ label) (hn : n < 2 ^ 31) (hpre : EndsNL pre)
    (hlab : ¬ label <:+: pre)
    (hlen : (label ++ List.replicate k ' ' ++ Nat.toDigits 10 n ++ " C\n".toList).length ≤ 255)
    (hfile : env.file (snprintf 100 (path ++ fname))
      = some (pre ++ (label ++ List.replicate k ' ' ++ Nat.toDigits 10 n ++ " C\n".toList
        ++ rest))) :
    proc_read env fname label path = n := by
  obtain ⟨hdne, hdig, -⟩ := toDigits_spec n
  set digits := Nat.toDigits 10 n with hdigits
  set line := label ++ List.replicate k ' ' ++ digits ++ " C\n".toList with hline
  have hline2 : line = (label ++ List.replicate k ' ' ++ digits ++ " C".toList) ++ ['\n'] := by
    simp [hline]
  have hbody : '\n' ∉ label ++ List.replicate k ' ' ++ digits ++ " C".toList := by
    intro h
    simp only [List.mem_append, List.mem_replicate] at h
    rcases h with ((h | h) | h) | h
    · exact hl1 h
    · exact absurd h.2 (by decide)
    · exact absurd (hdig _ h) (by decide)
    · exact absurd h (by decide)
  have hlinelen : (label ++ List.replicate k ' ' ++ digits ++ " C".toList).length < 255 := by
    rw [hline2] at hlen
    simp only [List.length_append, List.length_singleton] at hlen ⊢
    omega
  have hlne : line ≠ [] := by simp [hline, hl0]
  have hf : fgets 256 (line ++ rest) = some (line, rest) := by
    rw [fgets_of_ne_nil _ _ (by simp [hlne]), hline2, List.append_assoc]
    exact congrArg some (fgetsAux_line _ rest hbody 255 hlinelen)
  have hpfx : label.isPrefixOf line = true := by
    rw [List.isPrefixOf_iff_prefix, hline, List.append_assoc, List.append_assoc]
    exact List.prefix_append _ _
  have hstr : strstr line label = some line := strstr_of_isPrefixOf line label hlne hpfx
  obtain ⟨r, q, hr, hq⟩ := proc_scan_skip label (line ++ rest) pre.length pre le_rfl hpre hlab
    ((pre ++ (line ++ rest)).length + 1) env.pstr0 (by simp; omega)
  obtain ⟨f, hfu⟩ : ∃ f, (pre ++ (line ++ rest)).length + 1 - r = f + 1 :=
    ⟨(pre ++ (line ++ rest)).length - r, by simp at hr ⊢; omega⟩
  have hscan : proc_scan label ((pre ++ (line ++ rest)).length + 1) (pre ++ (line ++ rest))
      env.pstr0 = some line := by
    rw [hq, hfu, proc_scan, hf]
    simp only [hstr]
  have hdrop : line.drop label.length = List.replicate k ' ' ++ (digits ++ " C\n".toList) := by
    rw [hline, List.append_assoc, List.append_assoc, List.drop_left]
  have hdw : (List.replicate k ' ' ++ (digits ++ " C\n".toList)).dropWhile (fun c => c == ' ')
      = digits ++ " C\n".toList := by
    apply dropWhile_spaces
    obtain ⟨c, cs, hcs⟩ := List.exists_cons_of_ne_nil hdne
    rw [hcs]
    intro d hd
    simp at hd
    rw [← hd]
    exact (isdigit_facts c (hdig c (by rw [hcs]; simp))).2.1
  have hstrip : strip3 (digits ++ " C\n".toList) = digits := by
    unfold strip3
    have h3 : (" C\n".toList).length = 3 := rfl
    rw [if_pos (by rw [List.length_append, h3]; omega), List.length_append, h3,
      Nat.add_sub_cancel, List.take_left]
  unfold proc_read
  rw [hfile]
  simp only [hscan, hdrop, hdw, hstrip]
  exact atoi_toDigits n hn

/-- C7 (as the code has it). Legacy reader parse: let the file open and consist of complete
lines without the label, then the line made of the label, `k` blanks, the decimal
rendering of `n`, ` C` and a newline (at most 255 characters in all), then anything. For
`n` below 2^31, `proc_get_temperature` (label `temperature:`) and `proc_get_critical`
(label `critical (S5):`) return `n`. -/
theorem proc_readers_parse (env : Env) (path : CStr) (n k : Nat) (pre rest : CStr)
    (hn : n < 2 ^ 31) (hpre : pre = [] ∨ pre.getLast? = some '\n') :
    (¬ "temperature:".toList <:+: pre →
      ("temperature:".toList ++ List.replicate k ' ' ++ Nat.toDigits 10 n
        ++ " C\n".toList).length ≤ 255 →
      env.file (snprintf 100 (path ++ PROC_THERMAL_TEMPF))
        = some (pre ++ ("temperature:".toList ++ List.replicate k ' ' ++ Nat.toDigits 10 n
            ++ " C\n".toList ++ rest)) →
      proc_get_temperature env (some path) = n) ∧
    (¬ PROC_TRIP_CRITICAL <:+: pre →
      (PROC_TRIP_CRITICAL ++ List.replicate k ' ' ++ Nat.toDigits 10 n
        ++ " C\n".toList).length ≤ 255 →
      env.file (snprintf 100 (path ++ PROC_THERMAL_TRIP))
        = some (pre ++ (PROC_TRIP_CRITICAL ++ List.replicate k ' ' ++ Nat.toDigits 10 n
            ++ " C\n".toList ++ rest)) →
      proc_get_critical env (some path) = n) :=
  ⟨fun hlab hlen hfile => proc_read_value env _ _ path n k pre rest (by decide) (by decide) hn
      (EndsNL_of_getLast? pre hpre) hlab hlen hfile,
   fun hlab hlen hfile => proc_read_value env _ _ path n k pre rest (by decide) (by decide) hn
      (EndsNL_of_getLast? pre hpre) hlab hlen hfile⟩

theorem proc_readers_parse_witness :
    proc_get_temperature envLegacy (some "/proc/acpi/thermal_zone/THM0/".toList) = (55 : Nat) ∧
    proc_get_critical envLegacy (some "/proc/acpi/thermal_zone/THM0/".toList) = (100 : Nat) :=
  ⟨(proc_readers_parse envLegacy "/proc/acpi/thermal_zone/THM0/".toList 55 13
      "state: ok\n".toList [] (by norm_num) (Or.inr (by decide))).1
      (by decide) (by decide) (by decide),
   (proc_readers_parse envLegacy "/proc/acpi/thermal_zone/THM0/".toList 100 3
      [] "passive: 95 C\n".toList (by norm_num) (Or.inl rfl)).2
      (by decide) (by decide) (by decide)⟩

/-- C7 as stated fails: the file holds the single line `temperature:`, one blank, the
decimal rendering of 55 and ` C`, with no newline after it, and `proc_get_temperature`
returns 5, not 55. -/
theorem proc_get_temperature_no_newline :
    envLegacyNoNewline.file (snprintf 100
        ("/proc/acpi/thermal_zone/THM0/".toList ++ PROC_THERMAL_TEMPF))
      = some ("temperature:".toList ++ List.replicate 1 ' ' ++ Nat.toDigits 10 55 ++ " C".toList) ∧
    proc_get_temperature envLegacyNoNewline (some "/proc/acpi/thermal_zone/THM0/".toList) = 5 ∧
    proc_get_temperature envLegacyNoNewline (some "/proc/acpi/thermal_zone/THM0/".toList) ≠ 55 := by
  decide

/-! ## The registry -/

theorem add_sensor_numsensors_le (th : thermal) (path : Option CStr)
    (h : th.numsensors ≤ MAX_NUM_SENSORS) : (add_sensor th path).1.numsensors ≤ MAX_NUM_SENSORS := by
  unfold add_sensor
  split
  · exact h
  · simp only
    omega

theorem add_all_numsensors_le (paths : List (Option CStr)) : ∀ th : thermal,
    th.numsensors ≤ MAX_NUM_SENSORS → (add_all paths th).numsensors ≤ MAX_NUM_SENSORS := by
  induction paths with
  | nil => intro th h; exact h
  | cons p ps ih =>
    intro th h
    exact ih _ (add_sensor_numsensors_le th p h)

theorem find_sensors_loop_eq (directory : CStr) ( subdir_prefix : Option CStr) :
    ∀ (names : List CStr) (th : thermal),
      find_sensors_loop directory subdir_prefix names th
        = add_all (candidates directory subdir_prefix names) th := by
  intro names
  induction names with
  | nil => intro th; rfl
  | cons name rest ih =>
    intro th
    rw [find_sensors_loop]
    by_cases h1 : name.head? = some '.'
    · rw [if_pos h1, ih]
      simp [candidates, List.filterMap_cons, h1]
    · rw [if_neg h1]
      by_cases h2 : ( subdir_prefix.any fun p => !(p.isPrefixOf name)) = true
      · rw [if_pos h2, ih]
        simp only [candidates, List.filterMap_cons, h1, h2, if_true, if_false]
      · rw [if_neg h2, ih]
        simp only [candidates, List.filterMap_cons, h1, h2, if_false]
        rfl

theorem find_sensors_eq (env : Env) (th : thermal) (directory : CStr)
    ( subdir_prefix : Option CStr) :
    find_sensors env th directory subdir_prefix
      = add_all (found env directory subdir_prefix) th := by
  unfold find_sensors found
  cases env.dir directory with
  | none => rfl
  | some names => exact find_sensors_loop_eq directory subdir_prefix names th

theorem check_sensors_eq (env : Env) (th : thermal) :
    check_sensors env th = add_all (scan_candidates env) th := by
  unfold check_sensors scan_candidates
  rw [find_sensors_eq, find_sensors_eq]
  simp [add_all, List.foldl_append]

/-- The registry after a run of `add_sensor` calls: the first paths that fit are stored
behind the entries already there, everything else is as before. -/
theorem add_all_spec (paths : List (Option CStr)) : ∀ th : thermal,
    th.numsensors ≤ MAX_NUM_SENSORS →
    add_all paths th = { th with
      numsensors := min (th.numsensors + paths.length) MAX_NUM_SENSORS
      sensor_array := fun i =>
        if th.numsensors ≤ i ∧ i < min (th.numsensors + paths.length) MAX_NUM_SENSORS
        then paths.getD (i - th.numsensors) none else th.sensor_array i
      get_critical := fun i =>
        if th.numsensors ≤ i ∧ i < min (th.numsensors + paths.length) MAX_NUM_SENSORS
        then get_crit_function (paths.getD (i - th.numsensors) none) else th.get_critical i
      get_temperature := fun i =>
        if th.numsensors ≤ i ∧ i < min (th.numsensors + paths.length) MAX_NUM_SENSORS
        then get_temp_function (paths.getD (i - th.numsensors) none)
        else th.get_temperature i } := by
  induction paths with
  | nil =>
    intro th h
    ext1 <;> try rfl
    · simp only [add_all, List.foldl_nil, List.length_nil]; omega
    all_goals
      funext i
      simp only [add_all, List.foldl_nil, List.length_nil]
      rw [if_neg (by omega)]
  | cons p ps ih =>
    intro th h
    have hstep : add_all (p :: ps) th = add_all ps (add_sensor th p).1 := rfl
    rw [hstep, ih _ (add_sensor_numsensors_le th p h)]
    unfold MAX_NUM_SENSORS at h ⊢
    by_cases hk : th.numsensors + 1 > 10
    · have hadd : add_sensor th p = (th, -1) := by
        unfold add_sensor MAX_NUM_SENSORS
        rw [if_pos hk]
      rw [hadd]
      ext1 <;> try rfl
      · simp only [List.length_cons]; omega
      all_goals
        funext i
        simp only [List.length_cons]
        rw [if_neg (by omega), if_neg (by omega)]
    · have hadd : add_sensor th p = ({ th with
          sensor_array := Function.update th.sensor_array th.numsensors p
          get_critical := Function.update th.get_critical th.numsensors (get_crit_function p)
          get_temperature := Function.update th.get_temperature th.numsensors
            (get_temp_function p)
          numsensors := th.numsensors + 1 }, 0) := by
        unfold add_sensor MAX_NUM_SENSORS
        rw [if_neg hk]
      rw [hadd]
      ext1 <;> try rfl
      · simp only [List.length_cons]; omega
      all_goals
        funext i
        simp only [List.length_cons]
        by_cases hi : i = th.numsensors
        · subst hi
          rw [if_neg (by omega), if_pos (by omega)]
          simp
        · by_cases hr : th.numsensors ≤ i ∧ i < min (th.numsensors + (ps.length + 1)) 10
          · rw [if_pos (by omega), if_pos hr]
            obtain ⟨d, hd⟩ : ∃ d, i - th.numsensors = d + 1 := ⟨i - th.numsensors - 1, by omega⟩
            have hd2 : i - (th.numsensors + 1) = d := by omega
            rw [hd, hd2, List.getD_cons_succ]
          · rw [if_neg (by omega), if_neg hr]
            simp [Function.update, hi]

/-! ## Configuration -/

/-- The three parts `applyConfig` runs in sequence. -/
theorem applyConfig_steps (env : Env) (th : thermal) :
    applyConfig env th = conclude env (add_all (rebuild_paths env th) (prepare env th)) := by
  unfold applyConfig conclude rebuild_paths prepare remove_all_sensors auto_flag
  by_cases hs : th.sensor = none
  · simp [hs, check_sensors_eq]
  · by_cases ha : th.auto_sensor = 0
    · simp [hs, ha, add_all]
    · simp [hs, ha, check_sensors_eq]

theorem get_critical_loop_congr (env : Env) (th1 th2 : thermal)
    (hg : th1.get_critical = th2.get_critical) (hs : th1.sensor_array = th2.sensor_array) :
    ∀ (todo i : Nat) (m : Int),
      get_critical_loop env th1 todo i m = get_critical_loop env th2 todo i m := by
  intro todo
  induction todo with
  | zero => intro i m; rfl
  | succ todo ih =>
    intro i m
    simp only [get_critical_loop, hg, hs, ih]

theorem get_critical_congr (env : Env) (th1 th2 : thermal) (hn : th1.numsensors = th2.numsensors)
    (hg : th1.get_critical = th2.get_critical) (hs : th1.sensor_array = th2.sensor_array) :
    get_critical env th1 = get_critical env th2 := by
  unfold get_critical
  rw [hn]
  exact get_critical_loop_congr env th1 th2 hg hs _ _ _

/-- The loop of `get_critical` computes the minimum of its start value and the readings. -/
theorem get_critical_loop_spec (env : Env) (th : thermal) : ∀ (todo i : Nat) (m : Int),
    get_critical_loop env th todo i m ≤ m ∧
    (∀ j, i ≤ j → j < i + todo → get_critical_loop env th todo i m ≤ crit_reading env th j) ∧
    (get_critical_loop env th todo i m = m ∨
      ∃ j, i ≤ j ∧ j < i + todo ∧ get_critical_loop env th todo i m = crit_reading env th j) := by
  intro todo
  induction todo with
  | zero =>
    intro i m
    exact ⟨le_rfl, fun j h1 h2 => by omega, Or.inl rfl⟩
  | succ todo ih =>
    intro i m
    rw [get_critical_loop]
    have hcur : (th.get_critical i).call env (th.sensor_array i) = crit_reading env th i := rfl
    rw [hcur]
    obtain ⟨h1, h2, h3⟩ := ih (i + 1)
      (if crit_reading env th i < m then crit_reading env th i else m)
    have hmin : (if crit_reading env th i < m then crit_reading env th i else m) ≤ m ∧
        (if crit_reading env th i < m then crit_reading env th i else m)
          ≤ crit_reading env th i := by
      split <;> constructor <;> omega
    refine ⟨le_trans h1 hmin.1, ?_, ?_⟩
    · intro j hj1 hj2
      by_cases hji : j = i
      · rw [hji]; exact le_trans h1 hmin.2
      · exact h2 j (by omega) (by omega)
    · rcases h3 with h3 | ⟨j, hj1, hj2, hj3⟩
      · by_cases hlt : crit_reading env th i < m
        · rw [if_pos hlt] at h3
          rw [if_pos hlt]
          exact Or.inr ⟨i, le_rfl, by omega, h3⟩
        · rw [if_neg hlt] at h3
          rw [if_neg hlt]
          exact Or.inl h3
      · exact Or.inr ⟨j, by omega, by omega, hj3⟩

theorem conclude_eq (env : Env) (t : thermal) :
    conclude env t = { t with
      critical := get_critical env t
      warning1 := if t.not_custom_levels ≠ 0 then toInt32 (get_critical env t - 10) else t.warning1
      warning2 := if t.not_custom_levels ≠ 0 then toInt32 (get_critical env t - 5) else t.warning2
      settings :=
        { NormalColor := t.str_cl_normal
          Warning1Color := t.str_cl_warning1
          Warning2Color := t.str_cl_warning2
          CustomLevels := t.not_custom_levels
          Warning1Temp :=
            if t.not_custom_levels ≠ 0 then toInt32 (get_critical env t - 10) else t.warning1
          Warning2Temp :=
            if t.not_custom_levels ≠ 0 then toInt32 (get_critical env t - 5) else t.warning2
          AutomaticSensor := t.auto_sensor
          Sensor := t.sensor } } := by
  unfold conclude
  by_cases h : t.not_custom_levels = 0 <;> simp [h]

/-- The record `applyConfig` leaves. -/
theorem applyConfig_eq (env : Env) (th : thermal) :
    applyConfig env th = conclude env (rebuilt env th) := by
  rw [applyConfig_steps, add_all_spec _ _ (by simp [prepare])]
  congr 1
  simp [prepare, rebuilt]

theorem parse_color_idem (env : Env) (s : Option CStr) (c : GdkColor) :
    parse_color env s (parse_color env s c) = parse_color env s c := by
  unfold parse_color
  cases s with
  | none => rfl
  | some t =>
    simp only
    cases h : env.gdk_color_parse t <;> simp

theorem auto_flag_idem (th t : thermal) (hs : t.sensor = th.sensor)
    (ha : t.auto_sensor = auto_flag th) : auto_flag t = auto_flag th := by
  unfold auto_flag at ha ⊢
  rw [hs, ha]
  split <;> rfl

theorem conclude_idem (env : Env) (t : thermal) : conclude env (conclude env t) = conclude env t := by
  have hc : get_critical env (conclude env t) = get_critical env t :=
    get_critical_congr env _ _ (by rw [conclude_eq]) (by rw [conclude_eq]) (by rw [conclude_eq])
  rw [conclude_eq env (conclude env t), hc, conclude_eq env t]
  by_cases h : t.not_custom_levels = 0 <;> simp [h]

theorem rebuilt_conclude (env : Env) (th : thermal) :
    rebuilt env (conclude env (rebuilt env th)) = conclude env (rebuilt env th) := by
  have ha : auto_flag (conclude env (rebuilt env th)) = auto_flag th :=
    auto_flag_idem th _ (by rw [conclude_eq]; rfl) (by rw [conclude_eq]; rfl)
  have hp : rebuild_paths env (conclude env (rebuilt env th)) = rebuild_paths env th := by
    unfold rebuild_paths
    rw [ha]
    have : (conclude env (rebuilt env th)).sensor = th.sensor := by rw [conclude_eq]; rfl
    rw [this]
  rw [rebuilt, hp, ha]
  rw [conclude_eq]
  ext1
  all_goals try rfl
  · exact parse_color_idem env _ _
  · exact parse_color_idem env _ _
  · exact parse_color_idem env _ _
  all_goals
    funext i
    simp only [rebuilt]
    split <;> rfl

/-- C10. `applyConfig` is idempotent: on a fixed environment, a second call leaves the whole
record as the first call left it (registry, reader bindings, thresholds, `auto_sensor`
and the stored settings included). -/
theorem applyConfig_idempotent (env : Env) (th : thermal) :
    applyConfig env (applyConfig env th) = applyConfig env th := by
  rw [applyConfig_eq env (applyConfig env th), applyConfig_eq env th, rebuilt_conclude,
    conclude_idem]

theorem applyConfig_registry (env : Env) (th : thermal) :
    (applyConfig env th).numsensors = min (rebuild_paths env th).length MAX_NUM_SENSORS ∧
    (applyConfig env th).sensor_array = (rebuilt env th).sensor_array ∧
    (applyConfig env th).get_critical = (rebuilt env th).get_critical ∧
    (applyConfig env th).get_temperature = (rebuilt env th).get_temperature := by
  rw [applyConfig_eq, conclude_eq]
  exact ⟨rfl, rfl, rfl, rfl⟩

/-- C1. The registry never holds more than `MAX_NUM_SENSORS` = 10 entries. From a registry
with at most 10 entries, `add_sensor` with room left stores the path and its reader pair at
index `numsensors`, leaves the other entries alone, adds one to `numsensors` and returns 0;
with 10 entries it returns -1 and changes nothing. Hence `find_sensors` and `check_sensors`
end with at most 10 entries whatever the directories list, and so does `applyConfig`. -/
theorem registry_bounded (th : thermal) (path : Option CStr)
    (h : th.numsensors ≤ MAX_NUM_SENSORS) :
    MAX_NUM_SENSORS = 10 ∧
    (th.numsensors < MAX_NUM_SENSORS →
      (add_sensor th path).2 = 0 ∧
      (add_sensor th path).1.numsensors = th.numsensors + 1 ∧
      (add_sensor th path).1.sensor_array th.numsensors = path ∧
      (add_sensor th path).1.get_temperature th.numsensors = get_temp_function path ∧
      (add_sensor th path).1.get_critical th.numsensors = get_crit_function path ∧
      ∀ i, i ≠ th.numsensors →
        (add_sensor th path).1.sensor_array i = th.sensor_array i ∧
        (add_sensor th path).1.get_temperature i = th.get_temperature i ∧
        (add_sensor th path).1.get_critical i = th.get_critical i) ∧
    (th.numsensors = MAX_NUM_SENSORS → add_sensor th path = (th, -1)) ∧
    (∀ (env : Env) (directory : CStr) ( subdir_prefix : Option CStr),
      (find_sensors env th directory subdir_prefix).numsensors ≤ MAX_NUM_SENSORS) ∧
    (∀ env : Env, (check_sensors env th).numsensors ≤ MAX_NUM_SENSORS) ∧
    (∀ env : Env, (applyConfig env th).numsensors ≤ MAX_NUM_SENSORS) := by
  refine ⟨rfl, ?_, ?_, ?_, ?_, ?_⟩
  · intro hlt
    have hk : ¬ th.numsensors + 1 > MAX_NUM_SENSORS := by omega
    unfold add_sensor
    rw [if_neg hk]
    refine ⟨rfl, rfl, by simp, by simp, by simp, ?_⟩
    intro i hi
    simp [Function.update, hi]
  · intro heq
    unfold add_sensor
    rw [if_pos (by omega)]
  · intro env directory subdir_prefix
    rw [find_sensors_eq]
    exact add_all_numsensors_le _ th h
  · intro env
    rw [check_sensors_eq]
    exact add_all_numsensors_le _ th h
  · intro env
    rw [(applyConfig_registry env th).1]
    exact min_le_right _ _

theorem registry_bounded_witness :
    sampleThermal.numsensors ≤ MAX_NUM_SENSORS ∧
    (candidates SYSFS_THERMAL_DIRECTORY (some SYSFS_THERMAL_SUBDIR_PREFIX)
      (["thermal_zone0", "thermal_zone1", "thermal_zone2", "thermal_zone3", "cooling_device0",
        "thermal_zone4", "thermal_zone5", "thermal_zone6", "thermal_zone7", "thermal_zone8",
        "thermal_zone9", "thermal_zone10"].map String.toList)).length = 11 ∧
    (check_sensors envEleven sampleThermal).numsensors = 10 ∧
    (check_sensors envEleven sampleThermal).numsensors ≤ MAX_NUM_SENSORS ∧
    (applyConfig envEleven sampleThermal).numsensors ≤ MAX_NUM_SENSORS :=
  ⟨by decide, by decide, by decide,
   (registry_bounded sampleThermal none (by decide)).2.2.2.2.1 envEleven,
   (registry_bounded sampleThermal none (by decide)).2.2.2.2.2 envEleven⟩

/-- The registry `applyConfig` builds from a sensor path with `auto_sensor` off. -/
theorem applyConfig_manual (env : Env) (th : thermal) (p : CStr) (hs : th.sensor = some p)
    (ha : th.auto_sensor = 0) :
    (applyConfig env th).numsensors = 1 ∧
    (applyConfig env th).sensor_array 0 = some p ∧
    (applyConfig env th).get_temperature 0
      = (if "/sys/".toList.isPrefixOf p then Reader.sysfs_get_temperature
         else Reader.proc_get_temperature) ∧
    (applyConfig env th).get_critical 0
      = (if "/sys/".toList.isPrefixOf p then Reader.sysfs_get_critical
         else Reader.proc_get_critical) := by
  obtain ⟨h1, h2, h3, h4⟩ := applyConfig_registry env th
  have hp : rebuild_paths env th = [some p] := by
    simp [rebuild_paths, auto_flag, hs, ha]
  rw [h1, h2, h3, h4]
  simp only [rebuilt, hp]
  refine ⟨by simp [MAX_NUM_SENSORS], by simp [MAX_NUM_SENSORS], ?_, ?_⟩
  · simp [MAX_NUM_SENSORS, get_temp_function, is_sysfs]
  · simp [MAX_NUM_SENSORS, get_crit_function, is_sysfs]

/-- C9 (as the code has it). Manual-sensor policy: when a sensor path is set and
`auto_sensor` is off, `applyConfig` leaves exactly one entry, the path itself, bound to the
modern pair if it begins with `/sys/` and to the legacy pair otherwise. When no path is set
or `auto_sensor` is on, the registry is the one `check_sensors` builds from an empty
registry, whether or not a path is set. -/
theorem manual_sensor_policy (env : Env) (th : thermal) :
    (∀ p : CStr, th.sensor = some p → th.auto_sensor = 0 →
      (applyConfig env th).numsensors = 1 ∧
      (applyConfig env th).sensor_array 0 = some p ∧
      (applyConfig env th).get_temperature 0
        = (if "/sys/".toList.isPrefixOf p then Reader.sysfs_get_temperature
           else Reader.proc_get_temperature) ∧
      (applyConfig env th).get_critical 0
        = (if "/sys/".toList.isPrefixOf p then Reader.sysfs_get_critical
           else Reader.proc_get_critical)) ∧
    ((th.sensor = none ∨ th.auto_sensor ≠ 0) →
      (applyConfig env th).numsensors = (check_sensors env (remove_all_sensors th)).numsensors ∧
      (applyConfig env th).sensor_array = (check_sensors env (remove_all_sensors th)).sensor_array ∧
      (applyConfig env th).get_temperature
        = (check_sensors env (remove_all_sensors th)).get_temperature ∧
      (applyConfig env th).get_critical
        = (check_sensors env (remove_all_sensors th)).get_critical) := by
  obtain ⟨h1, h2, h3, h4⟩ := applyConfig_registry env th
  constructor
  · intro p hs ha
    exact applyConfig_manual env th p hs ha
  · intro hor
    have hp : rebuild_paths env th = scan_candidates env := by
      unfold rebuild_paths auto_flag
      rcases hor with hs | ha
      · simp [hs]
      · by_cases hs : th.sensor = none <;> simp [hs, ha]
    rw [h1, h2, h3, h4, check_sensors_eq,
      add_all_spec _ _ (by simp [remove_all_sensors])]
    simp only [rebuilt, hp, remove_all_sensors]
    refine ⟨by simp, ?_, ?_, ?_⟩ <;>
    · funext i
      simp

theorem manual_sensor_policy_witness :
    thManual.sensor = some "/sys/class/thermal/thermal_zone3/".toList ∧
    thManual.auto_sensor = 0 ∧
    (applyConfig envEleven thManual).numsensors = 1 ∧
    (applyConfig envEleven thManual).sensor_array 0
      = some "/sys/class/thermal/thermal_zone3/".toList ∧
    (applyConfig envEleven thManual).get_temperature 0 = Reader.sysfs_get_temperature ∧
    (applyConfig envEleven thManual).get_critical 0 = Reader.sysfs_get_critical :=
  ⟨rfl, rfl,
   (manual_sensor_policy envEleven thManual).1 "/sys/class/thermal/thermal_zone3/".toList rfl rfl⟩

/-- C9 as stated fails: a sensor path is set, automatic sensor location is on, and
`applyConfig` scans the directories and registers ten sensors, the first of them not the
path that was set. -/
theorem manual_path_with_auto_sensor_scans :
    thManualAuto.sensor = some "/sys/class/thermal/thermal_zone3/".toList ∧
    (applyConfig envEleven thManualAuto).numsensors = 10 ∧
    (applyConfig envEleven thManualAuto).sensor_array 0
      = some "/sys/class/thermal/thermal_zone0/".toList := by
  decide

/-! ## Thresholds -/

theorem applyConfig_critical (env : Env) (th : thermal) :
    (applyConfig env th).critical = get_critical env (applyConfig env th) := by
  have h : (applyConfig env th).critical = get_critical env (rebuilt env th) := by
    rw [applyConfig_eq, conclude_eq]
  rw [h]
  apply get_critical_congr <;> rw [applyConfig_eq, conclude_eq]

theorem applyConfig_warnings (env : Env) (th : thermal) :
    (applyConfig env th).warning1
      = (if th.not_custom_levels ≠ 0 then toInt32 ((applyConfig env th).critical - 10)
         else th.warning1) ∧
    (applyConfig env th).warning2
      = (if th.not_custom_levels ≠ 0 then toInt32 ((applyConfig env th).critical - 5)
         else th.warning2) := by
  rw [applyConfig_eq, conclude_eq]
  exact ⟨rfl, rfl⟩

/-- The value of `get_critical`: the least of `MAX_AUTOMATIC_CRITICAL_TEMP` and the
critical readings of the registered sensors. -/
theorem get_critical_spec (env : Env) (th : thermal) :
    get_critical env th ≤ MAX_AUTOMATIC_CRITICAL_TEMP ∧
    (∀ j, j < th.numsensors → get_critical env th ≤ crit_reading env th j) ∧
    (get_critical env th = MAX_AUTOMATIC_CRITICAL_TEMP ∨
      ∃ j, j < th.numsensors ∧ get_critical env th = crit_reading env th j) := by
  obtain ⟨h1, h2, h3⟩ := get_critical_loop_spec env th th.numsensors 0 MAX_AUTOMATIC_CRITICAL_TEMP
  refine ⟨h1, fun j hj => h2 j (Nat.zero_le j) (by omega), ?_⟩
  rcases h3 with h3 | ⟨j, -, hj, h3⟩
  · exact Or.inl h3
  · exact Or.inr ⟨j, by omega, h3⟩

/-- C3. Derived thresholds: when the registry `applyConfig` builds has at least one sensor
and every critical reading lies between 0 and 150, `critical` is the minimum of the
readings; with levels not customised `warning2 = critical - 5` and
`warning1 = critical - 10`, with customised levels both warnings stay as they were. -/
theorem derived_thresholds (env : Env) (th : thermal)
    (hn : 1 ≤ (applyConfig env th).numsensors)
    (hc : ∀ j, j < (applyConfig env th).numsensors →
      0 ≤ crit_reading env (applyConfig env th) j ∧
      crit_reading env (applyConfig env th) j ≤ 150) :
    (applyConfig env th).numsensors ≤ 10 ∧
    (∀ j, j < (applyConfig env th).numsensors →
      (applyConfig env th).critical ≤ crit_reading env (applyConfig env th) j) ∧
    (∃ j, j < (applyConfig env th).numsensors ∧
      (applyConfig env th).critical = crit_reading env (applyConfig env th) j) ∧
    (th.not_custom_levels ≠ 0 →
      (applyConfig env th).warning2 = (applyConfig env th).critical - 5 ∧
      (applyConfig env th).warning1 = (applyConfig env th).critical - 10) ∧
    (th.not_custom_levels = 0 →
      (applyConfig env th).warning1 = th.warning1 ∧
      (applyConfig env th).warning2 = th.warning2) := by
  obtain ⟨h1, h2, h3⟩ := get_critical_spec env (applyConfig env th)
  obtain ⟨hw1, hw2⟩ := applyConfig_warnings env th
  rw [← applyConfig_critical] at h1 h2 h3
  have hex : ∃ j, j < (applyConfig env th).numsensors ∧
      (applyConfig env th).critical = crit_reading env (applyConfig env th) j := by
    rcases h3 with h3 | h3
    · refine ⟨0, by omega, ?_⟩
      have ha := h2 0 (by omega)
      have hb := (hc 0 (by omega)).2
      unfold MAX_AUTOMATIC_CRITICAL_TEMP at h3
      omega
    · exact h3
  have hrange : 0 ≤ (applyConfig env th).critical ∧ (applyConfig env th).critical ≤ 150 := by
    obtain ⟨j, hj, hjc⟩ := hex
    rw [hjc]
    exact hc j hj
  refine ⟨?_, h2, hex, ?_, ?_⟩
  · rw [(applyConfig_registry env th).1]
    exact min_le_right _ _
  · intro hncl
    rw [hw1, hw2, if_pos hncl, if_pos hncl,
      toInt32_id _ (by norm_num; omega) (by norm_num; omega),
      toInt32_id _ (by norm_num; omega) (by norm_num; omega)]
    exact ⟨rfl, rfl⟩
  · intro hncl
    rw [hw1, hw2, if_neg (by simp [hncl]), if_neg (by simp [hncl])]
    exact ⟨rfl, rfl⟩

theorem derived_thresholds_witness :
    ((applyConfig envThree sampleThermal).numsensors = 3 ∧
      crit_reading envThree (applyConfig envThree sampleThermal) 0 = 90 ∧
      crit_reading envThree (applyConfig envThree sampleThermal) 1 = 85 ∧
      crit_reading envThree (applyConfig envThree sampleThermal) 2 = 95 ∧
      (applyConfig envThree sampleThermal).critical = 85 ∧
      (applyConfig envThree sampleThermal).warning2 = 80 ∧
      (applyConfig envThree sampleThermal).warning1 = 75) ∧
    ((applyConfig envThree sampleThermal).warning2
        = (applyConfig envThree sampleThermal).critical - 5 ∧
      (applyConfig envThree sampleThermal).warning1
        = (applyConfig envThree sampleThermal).critical - 10) :=
  ⟨by decide,
   (derived_thresholds envThree sampleThermal (by decide) (by decide)).2.2.2.1 (by decide)⟩

/-- C4. Critical fallback to the ceiling, at the input where the code departs from it: a
manual sensor path is set, automatic sensor location is off and no file opens. Both readers
of the one registered sensor return -1, as the claim says, but `get_critical` takes the -1
into its minimum, so `applyConfig` leaves `critical = -1` instead of
`MAX_AUTOMATIC_CRITICAL_TEMP` = 150, with `warning1 = -11` and `warning2 = -6`: a reading of
40 degrees is given the `cl_warning2` colour. With an empty registry the same function
returns 150. -/
theorem critical_not_ceiling :
    thManual.sensor = some "/sys/class/thermal/thermal_zone3/".toList ∧
    thManual.auto_sensor = 0 ∧
    (applyConfig envNothing thManual).numsensors = 1 ∧
    temp_reading envNothing (applyConfig envNothing thManual) 0 = -1 ∧
    crit_reading envNothing (applyConfig envNothing thManual) 0 = -1 ∧
    get_critical envNothing (applyConfig envNothing thManual) = -1 ∧
    (applyConfig envNothing thManual).critical = -1 ∧
    (applyConfig envNothing thManual).critical ≠ MAX_AUTOMATIC_CRITICAL_TEMP ∧
    (applyConfig envNothing thManual).warning1 = -11 ∧
    (applyConfig envNothing thManual).warning2 = -6 ∧
    select_color (applyConfig envNothing thManual) 40
      = (applyConfig envNothing thManual).cl_warning2 ∧
    (applyConfig envNothing sampleThermal).numsensors = 0 ∧
    (applyConfig envNothing sampleThermal).critical = MAX_AUTOMATIC_CRITICAL_TEMP := by
  decide

/-! ## Readings and display -/

/-- The loop of `get_temperature` stores every reading and returns the greatest of its start
value and the readings. -/
theorem get_temperature_loop_spec (env : Env) : ∀ (todo i : Nat) (th : thermal) (m : Int),
    (get_temperature_loop env todo i th m).1 = { th with
      temperature := fun j =>
        if i ≤ j ∧ j < i + todo then temp_reading env th j else th.temperature j } ∧
    m ≤ (get_temperature_loop env todo i th m).2 ∧
    (∀ j, i ≤ j → j < i + todo →
      temp_reading env th j ≤ (get_temperature_loop env todo i th m).2) ∧
    ((get_temperature_loop env todo i th m).2 = m ∨
      ∃ j, i ≤ j ∧ j < i + todo ∧
        (get_temperature_loop env todo i th m).2 = temp_reading env th j) := by
  intro todo
  induction todo with
  | zero =>
    intro i th m
    refine ⟨?_, le_rfl, fun j h1 h2 => by omega, Or.inl rfl⟩
    simp only [get_temperature_loop]
    ext1 <;> try rfl
    funext j
    simp only
    rw [if_neg (by omega)]
  | succ todo ih =>
    intro i th m
    rw [get_temperature_loop]
    have hcur : (th.get_temperature i).call env (th.sensor_array i) = temp_reading env th i := rfl
    simp only [hcur]
    obtain ⟨h0, h1, h2, h3⟩ := ih (i + 1)
      { th with temperature := Function.update th.temperature i (temp_reading env th i) }
      (if temp_reading env th i > m then temp_reading env th i else m)
    have hmax : m ≤ (if temp_reading env th i > m then temp_reading env th i else m) ∧
        temp_reading env th i
          ≤ (if temp_reading env th i > m then temp_reading env th i else m) := by
      split <;> constructor <;> omega
    refine ⟨?_, le_trans hmax.1 h1, ?_, ?_⟩
    · rw [h0]
      ext1 <;> try rfl
      funext j
      simp only [temp_reading]
      by_cases hji : j = i
      · subst hji
        rw [if_neg (by omega), if_pos (by omega)]
        simp
      · by_cases hr : i ≤ j ∧ j < i + (todo + 1)
        · rw [if_pos (by omega), if_pos hr]
        · rw [if_neg (by omega), if_neg hr]
          simp [Function.update, hji]
    · intro j hj1 hj2
      by_cases hji : j = i
      · rw [hji]; exact le_trans hmax.2 h1
      · exact h2 j (by omega) (by omega)
    · rcases h3 with h3 | ⟨j, hj1, hj2, hj3⟩
      · by_cases hgt : temp_reading env th i > m
        · rw [if_pos hgt] at h3
          rw [if_pos hgt]
          exact Or.inr ⟨i, le_rfl, by omega, h3⟩
        · rw [if_neg hgt] at h3
          rw [if_neg hgt]
          exact Or.inl h3
      · exact Or.inr ⟨j, by omega, by omega, hj3⟩

theorem get_temperature_spec (env : Env) (th : thermal) :
    (get_temperature env th).1 = { th with
      temperature := fun j =>
        if j < th.numsensors then temp_reading env th j else th.temperature j } ∧
    -273 ≤ (get_temperature env th).2 ∧
    (∀ j, j < th.numsensors → temp_reading env th j ≤ (get_temperature env th).2) ∧
    ((get_temperature env th).2 = -273 ∨
      ∃ j, j < th.numsensors ∧ (get_temperature env th).2 = temp_reading env th j) := by
  obtain ⟨h0, h1, h2, h3⟩ := get_temperature_loop_spec env th.numsensors 0 th (-273)
  unfold get_temperature
  refine ⟨?_, h1, fun j hj => h2 j (Nat.zero_le j) (by omega), ?_⟩
  · rw [h0]
    ext1 <;> try rfl
    funext j
    simp
  · rcases h3 with h3 | ⟨j, -, hj, h3⟩
    · exact Or.inl h3
    · exact Or.inr ⟨j, by omega, h3⟩

theorem select_color_get_temperature (env : Env) (th : thermal) (temp : Int) :
    select_color (get_temperature env th).1 temp = select_color th temp := by
  rw [(get_temperature_spec env th).1]
  rfl

theorem update_display_label (env : Env) (th : thermal) :
    (update_display env th).label
      = if (get_temperature env th).2 = -1 then Label.panel_draw_label_text "NA".toList
        else Label.gtk_label_set_markup
          (markup_buffer env (select_color th (get_temperature env th).2)
            (get_temperature env th).2) := by
  have hsel := select_color_get_temperature env th (get_temperature env th).2
  unfold update_display
  rcases hg : get_temperature env th with ⟨t, temp⟩
  rw [hg] at hsel
  simp only at hsel ⊢
  split <;> simp [hsel]

theorem tooltip_loop_congr (th1 th2 : thermal) (hs : th1.sensor_array = th2.sensor_array)
    (ht : th1.temperature = th2.temperature) : ∀ (todo i : Nat) (separator tip : CStr),
    tooltip_loop th1 todo i separator tip = tooltip_loop th2 todo i separator tip := by
  intro todo
  induction todo with
  | zero => intro i separator tip; rfl
  | succ todo ih =>
    intro i separator tip
    simp only [tooltip_loop, hs, ht, ih]

theorem update_display_tooltip (env : Env) (th : thermal) :
    (update_display env th).tooltip
      = tooltip_loop (get_temperature env th).1 th.numsensors 0 [] [] := by
  have hn : (get_temperature env th).1.numsensors = th.numsensors := by
    rw [(get_temperature_spec env th).1]
  unfold update_display
  rcases hg : get_temperature env th with ⟨t, temp⟩
  rw [hg] at hn
  simp only at hn ⊢
  split <;> simp only [hn] <;> apply tooltip_loop_congr <;> rfl

/-- C2. Severity band selection in `update_display`: the colour chosen for a reading is
`cl_warning2` from `warning2` up, otherwise `cl_warning1` from `warning1` up, otherwise
`cl_normal`; a reading equal to `warning2` selects `cl_warning2`, one equal to
`warning1 < warning2` selects `cl_warning1`, one below both selects `cl_normal`; and the
label of a reading other than -1 is formatted with the colour so chosen for the value
`get_temperature` returns. -/
theorem severity_band (env : Env) (th : thermal) :
    (∀ temp : Int, select_color th temp
      = if temp ≥ th.warning2 then th.cl_warning2
        else if temp ≥ th.warning1 then th.cl_warning1 else th.cl_normal) ∧
    select_color th th.warning2 = th.cl_warning2 ∧
    (th.warning1 < th.warning2 → select_color th th.warning1 = th.cl_warning1) ∧
    (∀ temp : Int, temp < th.warning1 → temp < th.warning2 →
      select_color th temp = th.cl_normal) ∧
    ((get_temperature env th).2 ≠ -1 →
      (update_display env th).label = Label.gtk_label_set_markup
        (markup_buffer env
          (if (get_temperature env th).2 ≥ th.warning2 then th.cl_warning2
           else if (get_temperature env th).2 ≥ th.warning1 then th.cl_warning1
           else th.cl_normal)
          (get_temperature env th).2)) := by
  refine ⟨fun temp => rfl, ?_, ?_, ?_, ?_⟩
  · unfold select_color
    rw [if_pos (le_refl _)]
  · intro h
    unfold select_color
    rw [if_neg (by omega), if_pos (le_refl _)]
  · intro temp h1 h2
    unfold select_color
    rw [if_neg (by omega), if_neg (by omega)]
  · intro h
    rw [update_display_label, if_neg h]
    rfl

theorem severity_band_witness :
    ((applyConfig envWarm sampleThermal).warning1 = 50 ∧
      (applyConfig envWarm sampleThermal).warning2 = 55 ∧
      (get_temperature envWarm (applyConfig envWarm sampleThermal)).2 = 55) ∧
    (update_display envWarm (applyConfig envWarm sampleThermal)).label
      = Label.gtk_label_set_markup (markup_buffer envWarm
          (applyConfig envWarm sampleThermal).cl_warning2 55) :=
  ⟨by decide,
   (severity_band envWarm (applyConfig envWarm sampleThermal)).2.2.2.2 (by decide)⟩

/-- C5. No sensors means `NA`, at the input where the code departs from it: no directory
opens, discovery registers nothing and `numsensors` is 0. `get_temperature` returns its start
value -273, the test `temp == -1` fails, and `update_display` sets the label to the markup
for the number -273 instead of `NA`; the tooltip is empty, as the claim says. With one
registered sensor whose file does not open the reading is -1 and the label is `NA`. -/
theorem no_sensors_shows_number :
    (applyConfig envNothing sampleThermal).numsensors = 0 ∧
    (get_temperature envNothing (applyConfig envNothing sampleThermal)).2 = -273 ∧
    (update_display envNothing (applyConfig envNothing sampleThermal)).label
      = Label.gtk_label_set_markup "<span color=\"#000000\"><b>-273</b></span>".toList ∧
    (update_display envNothing (applyConfig envNothing sampleThermal)).label
      ≠ Label.panel_draw_label_text "NA".toList ∧
    (update_display envNothing (applyConfig envNothing sampleThermal)).tooltip = [] ∧
    (applyConfig envNothing thManual).numsensors = 1 ∧
    (get_temperature envNothing (applyConfig envNothing thManual)).2 = -1 ∧
    (update_display envNothing (applyConfig envNothing thManual)).label
      = Label.panel_draw_label_text "NA".toList := by
  decide

end Thermal
